import Mathlib

/-!
Shallow embedding of the ockam v2 secure-channels facade
(`src/implementations/rust/ockam/ockam_identity/src/v2/secure_channels/secure_channels.rs`)
together with spec-modelled versions of the repository components the facade
calls into but whose code is not under `src/` (the handshake worker, the node
context, routes, flow controls, address allocation, the registry and the
listener).  The Rust facade mutates shared state through `&self`/`Arc`
interior mutability; here that state is passed and returned explicitly, and a
fallible step returns its error together with the state as it stood when the
early-return fired (Rust's `?` does not roll back side effects).
-/

/-- Modelled from the spec: logical endpoint addresses of the routing
substrate (spec §6); the address allocator hands out counter-based addresses
(spec §4.1), so addresses are plain naturals here. -/
abbrev Address := Nat

/-- Modelled from the spec: an `Identifier` is an opaque, comparable,
immutable value naming a long-term identity (spec §3). -/
structure Identifier where
  id : Nat
deriving DecidableEq

/-- Modelled from the spec: flow-control id, the token scoping which messages
may traverse a hop during a channel's lifetime (spec Glossary). -/
structure FlowControlId where
  fid : Nat
deriving DecidableEq

/-- `Role` enum from the spec data model (spec §3): fixes message ordering in
the handshake. -/
inductive Role where
  | Initiator
  | Responder
deriving DecidableEq

/-- Error taxonomy of spec §7, extended with the node-level errors the
out-of-src runtime can produce (a missing worker or an occupied worker
address) and a missing purpose-key repository entry. -/
inductive OckamError where
  | AttestationInvalid
  | AttestationExpired
  | TrustPolicyRejected
  | CredentialInvalid
  | CredentialRevoked
  | ProtocolViolation
  | HandshakeTimeout
  | ReplayOrOutOfOrder
  | ChannelNotFound
  | RouteResolutionFailed
  | PurposeKeyNotFound
  | WorkerNotFound
  | AddressInUse
deriving DecidableEq

deriving instance DecidableEq for Except

/-- `Result<T>` of ockam_core, embedded as `Except` over the error taxonomy. -/
abbrev OckamResult (α : Type) := Except OckamError α

/-- `Purpose` enum (src/ imports it from the models module; only the
`SecureChannel` purpose is used by the facade). -/
inductive Purpose where
  | SecureChannel
  | Credentials
deriving DecidableEq

/-- Modelled from the spec: a purpose-key attestation is a signed statement
binding a purpose key to the issuing Identifier and a validity window
(spec §3); the cryptographic signature check and the validity-window check
are abstracted into the two boolean fields. -/
structure PurposeKeyAttestation where
  subject : Identifier
  purpose : Purpose
  key : Nat
  valid_signature : Bool
  expired : Bool
deriving DecidableEq

/-- Modelled from the spec: a verified purpose key, the output of attestation
verification (spec §4.2, §6 `verify_attestation(attestation) -> PurposeKey`). -/
structure SecureChannelPurposeKey where
  attestation : PurposeKeyAttestation
deriving DecidableEq

/-- Modelled from the spec: the purpose-key repository consumed as an external
service (spec §6 `get_purpose_key(identifier, purpose) -> Attestation`). -/
structure PurposeKeyRepository where
  keys : List PurposeKeyAttestation
deriving DecidableEq

/-- Modelled from the spec: `get_purpose_key(identifier, purpose)` returns the
stored attestation for the identifier and purpose, failing when none exists. -/
def PurposeKeyRepository.get_purpose_key (repo : PurposeKeyRepository)
    (identifier : Identifier) (purpose : Purpose) :
    OckamResult PurposeKeyAttestation :=
  match repo.keys.find? (fun a => a.subject = identifier ∧ a.purpose = purpose) with
  | some a => .ok a
  | none => .error .PurposeKeyNotFound

/-- `PurposeKeys` service handle held by the facade (src/ line 21). -/
structure PurposeKeys where
  repo : PurposeKeyRepository
deriving DecidableEq

/-- Accessor mirroring `PurposeKeys::repository()` used at src/ line 107. -/
def PurposeKeys.repository (pk : PurposeKeys) : PurposeKeyRepository :=
  pk.repo

/-- Modelled from the spec: `verify_purpose_key(identifier, attestation)`
fails with `AttestationInvalid` if the signature does not verify, or
`AttestationExpired` if outside the validity window (spec §4.2). -/
def PurposeKeys.verify_purpose_key_attestation (_pk : PurposeKeys)
    (a : PurposeKeyAttestation) : OckamResult SecureChannelPurposeKey :=
  if a.valid_signature = false then .error .AttestationInvalid
  else if a.expired = true then .error .AttestationExpired
  else .ok ⟨a⟩

/-- Modelled from the spec: a credential is an additional signed claim about
an Identifier, verified against a TrustContext (spec §3); the verification
outcome is abstracted into the `valid` field. -/
structure Credential where
  subject : Identifier
  valid : Bool
deriving DecidableEq

/-- Modelled from the spec: the external TrustContext capability (spec §3). -/
structure TrustContext where
  name : Nat
deriving DecidableEq

/-- Modelled from the spec: `verify_credentials` fails with
`CredentialInvalid` when a presented credential fails verification; an empty
credential list is valid (spec §4.2). -/
def verify_credentials (_ctx : Option TrustContext)
    (credentials : List Credential) : OckamResult Unit :=
  if credentials.all (fun c => c.valid) then .ok () else .error .CredentialInvalid

/-- Modelled from the spec: a trust policy is a configurable predicate over a
verified peer Identifier (spec §3); embedded as data so that policies stay
decidable. -/
inductive TrustPolicy where
  | trustEveryone
  | trustIdentifiers (allowed : List Identifier)
deriving DecidableEq

/-- Evaluation of a trust policy predicate on a peer identifier. -/
def TrustPolicy.check : TrustPolicy → Identifier → Bool
  | .trustEveryone, _ => true
  | .trustIdentifiers allowed, peer => allowed.contains peer

/-- Modelled from the spec: `evaluate_trust_policy` fails with
`TrustPolicyRejected` if the predicate returns false (spec §4.2). -/
def evaluate_trust_policy (policy : TrustPolicy) (peer : Identifier) :
    OckamResult Unit :=
  if policy.check peer then .ok () else .error .TrustPolicyRejected

/-- Modelled from the spec: a route through the fabric, a sequence of hop
addresses (spec §6; `Route` is ockam_core code not under src/). -/
structure Route where
  hops : List Address
deriving DecidableEq

/-- Modelled from the spec: `route.next()` resolves the first hop; creation
"fails if the route is empty" with `RouteResolutionFailed` (spec §6, §7). -/
def Route.next (r : Route) : OckamResult Address :=
  match r.hops with
  | [] => .error .RouteResolutionFailed
  | a :: _ => .ok a

/-- The route's final destination, where the peer listener sits. -/
def Route.destination (r : Route) : OckamResult Address :=
  match r.hops.getLast? with
  | none => .error .RouteResolutionFailed
  | some a => .ok a

/-- Modelled from the spec: the transport substrate's flow controls — "the
ability to register a next-hop reservation (flow-control id) for the duration
of a channel" (spec §6).  A reservation pairs the reserved hop address with
the flow-control id scoping it. -/
structure FlowControls where
  reservations : List (Address × FlowControlId)
deriving DecidableEq

/-- `Addresses` tuple of the spec data model (spec §3): the per-channel
endpoint addresses; the facade additionally reads an encryptor-api address
(src/ line 134), so the api entry is split per worker. -/
structure Addresses where
  encryptor : Address
  encryptor_api : Address
  decryptor : Address
  decryptor_api : Address
deriving DecidableEq

/-- Modelled from the spec: `Addresses::generate(role)` produces four
process-unique addresses "via a monotonically increasing counter" (spec §4.1);
the counter is drawn from the node context's allocator state. -/
def Addresses.generate (_role : Role) (fresh : Nat) : Addresses :=
  { encryptor := 4 * fresh
    encryptor_api := 4 * fresh + 1
    decryptor := 4 * fresh + 2
    decryptor_api := 4 * fresh + 3 }

/-- `SecureChannelOptions` — the configuration recognized on creation: trust
policy predicate, credentials, trust context, handshake timeout, flow-control
identifier (spec §6); the field set mirrors the options the facade reads at
src/ lines 98, 102-103, 122-127. -/
structure SecureChannelOptions where
  flow_control_id : FlowControlId
  trust_policy : TrustPolicy
  credentials : List Credential
  trust_context : Option TrustContext
  timeout : Nat
deriving DecidableEq

/-- `SecureChannelListenerOptions` read by the listener facade
(src/ lines 70-74). -/
structure SecureChannelListenerOptions where
  flow_control_id : FlowControlId
  trust_policy : TrustPolicy
  credentials : List Credential
  trust_context : Option TrustContext
deriving DecidableEq

/-- Modelled from the spec: `setup_flow_control` reserves flow control for
the resolved first hop of the route (spec §6, "reserves flow control for
it"), recording the reservation under the options' flow-control id. -/
def SecureChannelOptions.setup_flow_control (o : SecureChannelOptions)
    (fc : FlowControls) (_addresses : Addresses) (next : Address) :
    OckamResult FlowControls :=
  .ok { reservations := (next, o.flow_control_id) :: fc.reservations }

/-- The decryptor-outgoing access-control hook handed to the handshake worker
(src/ line 123); modelled from the spec's access-control interface (spec §6):
it tags outgoing messages with the channel's flow id. -/
structure DecryptorOutgoingAccessControl where
  flow_control_id : FlowControlId
deriving DecidableEq

/-- Access-control bundle produced by `options.create_access_control`
(src/ line 103). -/
structure AccessControl where
  decryptor_outgoing_access_control : DecryptorOutgoingAccessControl
deriving DecidableEq

/-- Modelled from the spec: `create_access_control` derives the access-control
hook from the options' flow-control id (spec §6 access control hook). -/
def SecureChannelOptions.create_access_control (o : SecureChannelOptions)
    (_fc : FlowControls) : AccessControl :=
  { decryptor_outgoing_access_control := { flow_control_id := o.flow_control_id } }

/-- `RegistryEntry` of the spec data model (spec §3): {encryptor address,
decryptor address, peer Identifier, flow-control id, role}. -/
structure RegistryEntry where
  encryptor_address : Address
  decryptor_address : Address
  peer : Identifier
  flow_control_id : FlowControlId
  role : Role
deriving DecidableEq

/-- The process-wide secure-channel registry (spec §4.5), a directory of
registry entries keyed by channel address. -/
abbrev SecureChannelRegistry := List RegistryEntry

/-- Registry lookup by encryptor address (spec §4.5 `lookup(address)`). -/
def SecureChannelRegistry.lookup (reg : SecureChannelRegistry)
    (address : Address) : Option RegistryEntry :=
  reg.find? (fun e => e.encryptor_address = address)

/-- The negotiated session secret: the KDF output seeded by the ephemeral DH
output and the full transcript hash (spec §3, §4.3 step 4). -/
structure SessionSecret where
  key : Nat
  transcript_hash : Nat
deriving DecidableEq

/-- A running worker of the node: its inbox address, and — for the
encryptor/decryptor runtime workers — the session secret they were seeded
with (spec §4.4); other workers (listeners, handshake workers) carry none. -/
structure Worker where
  address : Address
  secret : Option SessionSecret
deriving DecidableEq

/-- A standing listener endpoint (spec §4.6): bound address, the identity it
is scoped to, and the responder-side configuration it hands to each spawned
Responder handshake. -/
structure ListenerEntry where
  address : Address
  identifier : Identifier
  trust_policy : TrustPolicy
  credentials : List Credential
  trust_context : Option TrustContext
  flow_control_id : FlowControlId
deriving DecidableEq

/-- Record of one `HandshakeWorker::create` invocation: the arguments the
facade passed when it spawned the worker (src/ lines 116-129). -/
structure HandshakeRequest where
  addresses : Addresses
  identifier : Identifier
  purpose_key : SecureChannelPurposeKey
  route : Option Route
  timeout : Option Nat
  role : Role
deriving DecidableEq

/-- Modelled from the spec: the node `Context` — the addressable-worker
substrate plus the process-shared mutable state the facade touches through
it: running workers, flow controls, listeners, the address-allocator counter,
an ephemeral-key counter standing in for the RNG, and the log of spawned
handshake workers (ockam_node code not under src/). -/
structure Context where
  workers : List Worker
  flow_controls : FlowControls
  listeners : List ListenerEntry
  addr_counter : Nat
  rng : Nat
  handshake_log : List HandshakeRequest
deriving DecidableEq

/-- Whether some worker is running at the given address. -/
def Context.has_worker (ctx : Context) (address : Address) : Bool :=
  ctx.workers.any (fun w => w.address = address)

/-- Modelled from the spec: `Context::stop_worker` stops the worker running
at the given address, failing with the node-level `WorkerNotFound` error when
none is (ockam_node code not under src/).  When the stopped worker is one of
a channel's runtime pair, its (out-of-src) shutdown handler treats the
termination as channel teardown per spec §4.4: it removes the channel's
`RegistryEntry`, stops the peer worker of the encryptor/decryptor pair, and
releases the flow-control reservations associated with the channel.  The
handlers reach the process-wide registry through their captured handles; in
this explicit-state embedding the registry is threaded in and out instead. -/
def Context.stop_worker (ctx : Context) (reg : SecureChannelRegistry)
    (address : Address) : (Context × SecureChannelRegistry) × OckamResult Unit :=
  if ctx.has_worker address then
    match reg.find? (fun e =>
        e.encryptor_address = address ∨ e.decryptor_address = address) with
    | some entry =>
      (({ ctx with
          workers := ctx.workers.filter (fun w =>
            w.address ≠ entry.encryptor_address ∧ w.address ≠ entry.decryptor_address)
          flow_controls := ⟨ctx.flow_controls.reservations.filter
            (fun res => res.2 ≠ entry.flow_control_id)⟩ },
        reg.filter (fun e =>
          e.encryptor_address ≠ entry.encryptor_address ∧
          e.decryptor_address ≠ entry.decryptor_address)),
       .ok ())
    | none =>
      (({ ctx with workers := ctx.workers.filter (fun w => w.address ≠ address) },
        reg), .ok ())
  else
    ((ctx, reg), .error .WorkerNotFound)

/-! ## Handshake state machine (spec §4.3), modelled from the spec

The handshake worker code is not under src/.  The protocol is embedded with a
concrete Diffie-Hellman-style key agreement over the multiplicative structure
of `ZMod 101` (the exact primitives are an implementation parameter, spec §9),
a perfect-signature model (a signature names the signing purpose key and the
digest it covers), and a rolling natural-number transcript hash. -/

/-- The group element generating DH public keys. -/
def dhGen : ZMod 101 := 2

/-- Ephemeral public key derived from an ephemeral scalar. -/
def dhPub (x : Nat) : ZMod 101 := dhGen ^ x

/-- DH combination of an own scalar with the peer's public key. -/
def dhShared (x : Nat) (peer : ZMod 101) : ZMod 101 := peer ^ x

/-- Rolling transcript hash: absorb one message encoding (spec Glossary,
"running cryptographic digest of all handshake messages"). -/
def absorb (h x : Nat) : Nat := h * 1000003 + x

/-- Signature in the perfect-signature model: it names the purpose key that
produced it and the transcript digest it covers. -/
structure HsSignature where
  key : Nat
  digest : Nat
deriving DecidableEq

/-- Signing a transcript digest with a purpose key. -/
def hsSign (purpose_key : Nat) (digest : Nat) : HsSignature :=
  { key := purpose_key, digest := digest }

/-- Signature verification against an attestation's purpose key and an
expected transcript digest. -/
def hsVerify (a : PurposeKeyAttestation) (digest : Nat) (s : HsSignature) :
    Bool :=
  s.key = a.key ∧ s.digest = digest

/-- Message 1 (Initiator → Responder): the initiator's ephemeral public key;
no identity is revealed (spec §4.3 step 1). -/
structure HsMessage1 where
  epub : ZMod 101
deriving DecidableEq

/-- Message 2 (Responder → Initiator): responder ephemeral public key,
purpose-key attestation, signature over the running transcript hash, and
credentials (spec §4.3 step 2). -/
structure HsMessage2 where
  epub : ZMod 101
  attestation : PurposeKeyAttestation
  signature : HsSignature
  credentials : List Credential
deriving DecidableEq

/-- Message 3 (Initiator → Responder): initiator purpose-key attestation,
signature over the updated transcript, and credentials (spec §4.3 step 3). -/
structure HsMessage3 where
  attestation : PurposeKeyAttestation
  signature : HsSignature
  credentials : List Credential
deriving DecidableEq

/-- Encoding of a credential into the transcript hash. -/
def encCredential (c : Credential) : Nat :=
  c.subject.id * 2 + (if c.valid then 1 else 0)

/-- Encoding of message 1 into the transcript hash. -/
def encMessage1 (m : HsMessage1) : Nat := m.epub.val

/-- Encoding of message 2 into the transcript hash. -/
def encMessage2 (m : HsMessage2) : Nat :=
  m.epub.val + m.attestation.key + m.signature.digest
    + (m.credentials.map encCredential).sum

/-- Encoding of message 3 into the transcript hash. -/
def encMessage3 (m : HsMessage3) : Nat :=
  m.attestation.key + m.signature.digest
    + (m.credentials.map encCredential).sum

/-- Key derivation finalizing the handshake: seeded by the ephemeral DH
output and the full transcript hash (spec §4.3 step 4). -/
def deriveSessionSecret (dh_out : ZMod 101) (transcript : Nat) :
    SessionSecret :=
  { key := dh_out.val, transcript_hash := transcript }

/-- Static configuration of one handshake side: own identifier, the verified
purpose key to prove identity with (the initiator carries the one verified at
creation time; the responder fetches its own from the repository when it
processes message 1), the trust policy to apply to the peer, and the
credentials to present. -/
structure HandshakeConfig where
  identifier : Identifier
  purpose_key : Option SecureChannelPurposeKey
  trust_policy : TrustPolicy
  credentials : List Credential
  trust_context : Option TrustContext
  eph : Nat
deriving DecidableEq

/-- Initiator-side handshake state: ephemeral material, the running
transcript hash, and — once message 2 is processed — the DH output and the
verified peer identity (spec §3 `HandshakeState`). -/
structure InitiatorState where
  config : HandshakeConfig
  transcript : Nat
  dh_out : Option (ZMod 101)
  peer : Option Identifier
deriving DecidableEq

/-- Responder-side handshake state. -/
structure ResponderState where
  config : HandshakeConfig
  transcript : Nat
  dh_out : ZMod 101
  transcript_at_msg3 : Nat
deriving DecidableEq

/-- Initiator `Start → SentMessage1`: generate the ephemeral key pair and
send the ephemeral public key (spec §4.3 step 1). -/
def initiator_start (c : HandshakeConfig) : InitiatorState × HsMessage1 :=
  let m1 : HsMessage1 := { epub := dhPub c.eph }
  ({ config := c
     transcript := absorb 0 (encMessage1 m1)
     dh_out := none
     peer := none }, m1)

/-- Responder `Start → ReceivedMessage1/SentMessage2`: absorb message 1,
generate the responder ephemeral pair, derive the DH output, and send the
responder's ephemeral public key, attestation, transcript signature and
credentials (spec §4.3 step 2).  The responder's own attestation is fetched
from the purpose-key repository and must verify. -/
def responder_process_message1 (pks : PurposeKeys) (c : HandshakeConfig)
    (m1 : HsMessage1) : OckamResult (ResponderState × HsMessage2) :=
  match pks.repository.get_purpose_key c.identifier Purpose.SecureChannel with
  | .error e => .error e
  | .ok own_attestation =>
    match pks.verify_purpose_key_attestation own_attestation with
    | .error e => .error e
    | .ok own_key =>
      let t1 := absorb 0 (encMessage1 m1)
      let dh_out := dhShared c.eph m1.epub
      let m2 : HsMessage2 :=
        { epub := dhPub c.eph
          attestation := own_key.attestation
          signature := hsSign own_key.attestation.key t1
          credentials := c.credentials }
      .ok ({ config := c
             transcript := absorb t1 (encMessage2 m2)
             dh_out := dh_out
             transcript_at_msg3 := 0 }, m2)

/-- Initiator `SentMessage1 → Completed-pending-msg3`: verify the responder
attestation, the transcript signature, the trust policy and the credentials;
on success reply with message 3 (spec §4.3 step 3).  Any verification failure
is terminal. -/
def initiator_process_message2 (pks : PurposeKeys) (s : InitiatorState)
    (m2 : HsMessage2) : OckamResult (InitiatorState × HsMessage3) :=
  match pks.verify_purpose_key_attestation m2.attestation with
  | .error e => .error e
  | .ok peer_key =>
    if hsVerify peer_key.attestation s.transcript m2.signature = false then
      .error .ProtocolViolation
    else
      match evaluate_trust_policy s.config.trust_policy peer_key.attestation.subject with
      | .error e => .error e
      | .ok _ =>
        match verify_credentials s.config.trust_context m2.credentials with
        | .error e => .error e
        | .ok _ =>
          match s.config.purpose_key with
          | none => .error .ProtocolViolation
          | some own_key =>
            let t2 := absorb s.transcript (encMessage2 m2)
            let m3 : HsMessage3 :=
              { attestation := own_key.attestation
                signature := hsSign own_key.attestation.key t2
                credentials := s.config.credentials }
            .ok ({ s with
                   transcript := absorb t2 (encMessage3 m3)
                   dh_out := some (dhShared s.config.eph m2.epub)
                   peer := some peer_key.attestation.subject }, m3)

/-- Responder completion: symmetric verification of the initiator's
attestation, signature, trust policy and credentials; on success the
responder derives the session secret (spec §4.3 step 4). -/
def responder_process_message3 (pks : PurposeKeys) (s : ResponderState)
    (m3 : HsMessage3) : OckamResult (SessionSecret × Identifier) :=
  match pks.verify_purpose_key_attestation m3.attestation with
  | .error e => .error e
  | .ok peer_key =>
    if hsVerify peer_key.attestation s.transcript m3.signature = false then
      .error .ProtocolViolation
    else
      match evaluate_trust_policy s.config.trust_policy peer_key.attestation.subject with
      | .error e => .error e
      | .ok _ =>
        match verify_credentials s.config.trust_context m3.credentials with
        | .error e => .error e
        | .ok _ =>
          let t3 := absorb s.transcript (encMessage3 m3)
          .ok (deriveSessionSecret s.dh_out t3, peer_key.attestation.subject)

/-- Initiator completion: derive the session secret from the stored DH output
and the full transcript (spec §4.3 step 4). -/
def initiator_finalize (s : InitiatorState) : OckamResult (SessionSecret × Identifier) :=
  match s.dh_out, s.peer with
  | some dh_out, some peer => .ok (deriveSessionSecret dh_out s.transcript, peer)
  | _, _ => .error .ProtocolViolation

/-- Outcome of a completed handshake: both sides' independently derived
session secrets and verified peer identities. -/
structure HandshakeOutcome where
  initiator_secret : SessionSecret
  responder_secret : SessionSecret
  initiator_peer : Identifier
  responder_peer : Identifier
deriving DecidableEq

/-- The full three-message exchange between an initiator and a responder
configuration, with in-order reliable delivery of the handshake messages;
any verification failure at any step is terminal (spec §4.3). -/
def run_handshake (pks : PurposeKeys) (ini resp : HandshakeConfig) :
    OckamResult HandshakeOutcome :=
  let (si, m1) := initiator_start ini
  match responder_process_message1 pks resp m1 with
  | .error e => .error e
  | .ok (sr, m2) =>
    match initiator_process_message2 pks si m2 with
    | .error e => .error e
    | .ok (si, m3) =>
      match initiator_finalize si with
      | .error e => .error e
      | .ok (ki, ipeer) =>
        match responder_process_message3 pks sr m3 with
        | .error e => .error e
        | .ok (kr, rpeer) =>
          .ok { initiator_secret := ki
                responder_secret := kr
                initiator_peer := ipeer
                responder_peer := rpeer }

/-! ## Secure channel runtime (spec §4.4), modelled from the spec -/

/-- A ciphertext: the per-direction sequence counter it was produced under
and the encrypted body (spec §4.4). -/
structure Ciphertext where
  seq : Nat
  body : Nat
deriving DecidableEq

/-- Keystream pad for one sequence position, derived from the session secret
(authenticated-encryption construction abstracted to an additive pad). -/
def keystream (s : SessionSecret) (seq : Nat) : Nat :=
  (s.key + s.transcript_hash + 1) * (seq + 1)

/-- Encryptor worker state: the session secret and the monotonically
increasing per-direction sequence counter (spec §4.4). -/
structure EncryptorState where
  secret : SessionSecret
  seq : Nat
deriving DecidableEq

/-- Decryptor worker state: the session secret and the set of sequence
counters already consumed (spec §4.4). -/
structure DecryptorState where
  secret : SessionSecret
  consumed : List Nat
deriving DecidableEq

/-- Encrypt one application payload: pad it with the keystream at the current
counter, tag the ciphertext with that counter, increment the counter. -/
def encrypt (e : EncryptorState) (payload : Nat) : EncryptorState × Ciphertext :=
  ({ e with seq := e.seq + 1 },
   { seq := e.seq, body := payload + keystream e.secret e.seq })

/-- Decrypt one inbound ciphertext: reject an already-consumed counter with
`ReplayOrOutOfOrder`, otherwise strip the keystream pad and record the
counter as consumed (spec §4.4). -/
def decrypt (d : DecryptorState) (c : Ciphertext) :
    DecryptorState × OckamResult Nat :=
  if c.seq ∈ d.consumed then (d, .error .ReplayOrOutOfOrder)
  else ({ d with consumed := c.seq :: d.consumed },
        .ok (c.body - keystream d.secret c.seq))

/-! ## Handshake worker and listener, modelled from the spec -/

/-- `SecureChannels` facade struct (src/ lines 18-23): the identities
service, the purpose-keys service and the process-wide registry.  The
identities service is consumed opaquely by the facade (spec §1), so only its
vault handle is represented. -/
structure IdentitiesVault where
  vault_id : Nat
deriving DecidableEq

/-- The external `Identities` service handle (spec §1, out of scope;
consumed opaquely). -/
structure Identities where
  vault_handle : IdentitiesVault
deriving DecidableEq

/-- Accessor mirroring `Identities::vault()`. -/
def Identities.vault (i : Identities) : IdentitiesVault :=
  i.vault_handle

/-- The facade service struct (src/ lines 18-23). -/
structure SecureChannels where
  identities : Identities
  purpose_keys : PurposeKeys
  secure_channel_registry : SecureChannelRegistry
deriving DecidableEq

/-- Constructor mirroring `SecureChannels::new` (src/ lines 27-37). -/
def SecureChannels.new (identities : Identities) (purpose_keys : PurposeKeys)
    (secure_channel_registry : SecureChannelRegistry) : SecureChannels :=
  { identities := identities
    purpose_keys := purpose_keys
    secure_channel_registry := secure_channel_registry }

/-- Modelled from the spec: `HandshakeWorker::create`
(handshake_worker.rs, not under src/).  The facade calls it only with
`Role::Initiator`, a concrete route and a concrete timeout (src/ lines
116-130).  The invocation is recorded in the context's handshake log; then
the worker runs the Initiator-role handshake toward the route's destination
(spec §6): when no listener is bound there the peer never responds and the
configured timeout expires — the worker fails with `HandshakeTimeout` and
releases the flow-control reservation it made (spec §4.3); otherwise the
inbound listener's Responder handshake runs against it, and on completion
both sides' runtime workers are spawned seeded with their session secrets
and registry entries are inserted (spec §2, §4.4, §4.5). -/
def HandshakeWorker.create (ctx : Context) (sc : SecureChannels)
    (addresses : Addresses) (identifier : Identifier)
    (purpose_key : SecureChannelPurposeKey) (trust_policy : TrustPolicy)
    (access : DecryptorOutgoingAccessControl) (credentials : List Credential)
    (trust_context : Option TrustContext) (route : Option Route)
    (timeout : Option Nat) (role : Role) :
    (SecureChannels × Context) × OckamResult Unit :=
  let request : HandshakeRequest :=
    { addresses := addresses
      identifier := identifier
      purpose_key := purpose_key
      route := route
      timeout := timeout
      role := role }
  let ctx := { ctx with handshake_log := request :: ctx.handshake_log }
  match route with
  | none => ((sc, ctx), .error .ProtocolViolation)
  | some r =>
    match r.destination with
    | .error e => ((sc, ctx), .error e)
    | .ok dest =>
      match ctx.listeners.find? (fun l => l.address = dest) with
      | none =>
        let released : FlowControls :=
          { reservations := ctx.flow_controls.reservations.filter
              (fun res => res.2 ≠ access.flow_control_id) }
        ((sc, { ctx with flow_controls := released }), .error .HandshakeTimeout)
      | some listener =>
        let ini : HandshakeConfig :=
          { identifier := identifier
            purpose_key := some purpose_key
            trust_policy := trust_policy
            credentials := credentials
            trust_context := trust_context
            eph := ctx.rng }
        let resp : HandshakeConfig :=
          { identifier := listener.identifier
            purpose_key := none
            trust_policy := listener.trust_policy
            credentials := listener.credentials
            trust_context := listener.trust_context
            eph := ctx.rng + 1 }
        let ctx := { ctx with rng := ctx.rng + 2 }
        match run_handshake sc.purpose_keys ini resp with
        | .error e => ((sc, ctx), .error e)
        | .ok outcome =>
          let resp_addresses := Addresses.generate Role.Responder ctx.addr_counter
          let ctx := { ctx with addr_counter := ctx.addr_counter + 1 }
          let ini_entry : RegistryEntry :=
            { encryptor_address := addresses.encryptor
              decryptor_address := addresses.decryptor
              peer := outcome.initiator_peer
              flow_control_id := access.flow_control_id
              role := Role.Initiator }
          let resp_entry : RegistryEntry :=
            { encryptor_address := resp_addresses.encryptor
              decryptor_address := resp_addresses.decryptor
              peer := outcome.responder_peer
              flow_control_id := listener.flow_control_id
              role := Role.Responder }
          let ctx :=
            { ctx with workers :=
                ⟨addresses.encryptor, some outcome.initiator_secret⟩ ::
                ⟨addresses.decryptor, some outcome.initiator_secret⟩ ::
                ⟨resp_addresses.encryptor, some outcome.responder_secret⟩ ::
                ⟨resp_addresses.decryptor, some outcome.responder_secret⟩ ::
                ctx.workers }
          let sc := { sc with secure_channel_registry :=
                        ini_entry :: resp_entry :: sc.secure_channel_registry }
          ((sc, ctx), .ok ())

/-- Modelled from the spec: `IdentityChannelListener::create` (not under
src/) binds a standing listener endpoint to the given address (spec §4.6),
failing with the node-level `AddressInUse` error when a worker or listener is
already bound there. -/
def IdentityChannelListener.create (ctx : Context) (_sc : SecureChannels)
    (identifier : Identifier) (address : Address)
    (options : SecureChannelListenerOptions) :
    Context × OckamResult Unit :=
  if ctx.has_worker address ∨ ctx.listeners.any (fun l => l.address = address) then
    (ctx, .error .AddressInUse)
  else
    ({ ctx with
       workers := ⟨address, none⟩ :: ctx.workers
       listeners :=
         { address := address
           identifier := identifier
           trust_policy := options.trust_policy
           credentials := options.credentials
           trust_context := options.trust_context
           flow_control_id := options.flow_control_id } :: ctx.listeners }, .ok ())

/-! ## The facade (src/ lines 63-143) -/

/-- The `SecureChannel` handle returned to the caller: encryptor address,
encryptor api address and flow-control id (constructed at src/ lines
132-136). -/
structure SecureChannel where
  encryptor_address : Address
  encryptor_api_address : Address
  flow_control_id : FlowControlId
deriving DecidableEq

/-- Constructor mirroring `SecureChannel::new`. -/
def SecureChannel.new (encryptor_address : Address)
    (encryptor_api_address : Address) (flow_control_id : FlowControlId) :
    SecureChannel :=
  { encryptor_address := encryptor_address
    encryptor_api_address := encryptor_api_address
    flow_control_id := flow_control_id }

/-- The `SecureChannelListener` handle: bound address and flow-control id
(constructed at src/ line 85). -/
structure SecureChannelListener where
  address : Address
  flow_control_id : FlowControlId
deriving DecidableEq

/-- Constructor mirroring `SecureChannelListener::new`. -/
def SecureChannelListener.new (address : Address)
    (flow_control_id : FlowControlId) : SecureChannelListener :=
  { address := address, flow_control_id := flow_control_id }

/-- `SecureChannels::create_secure_channel_listener` (src/ lines 65-86):
clone the options' flow-control id, create the identity channel listener at
the address, and on success return the handle carrying the bound address and
that flow-control id; a listener-creation error propagates via `?`. -/
def SecureChannels.create_secure_channel_listener (sc : SecureChannels)
    (ctx : Context) (identifier : Identifier) (address : Address)
    (options : SecureChannelListenerOptions) :
    (SecureChannels × Context) × OckamResult SecureChannelListener :=
  let flow_control_id := options.flow_control_id
  match IdentityChannelListener.create ctx sc identifier address options with
  | (ctx, .error e) => ((sc, ctx), .error e)
  | (ctx, .ok _) =>
    ((sc, ctx), .ok (SecureChannelListener.new address flow_control_id))

/-- `SecureChannels::create_secure_channel` (src/ lines 89-137), step by
step: generate Initiator-role addresses (line 96), clone the options'
flow-control id (line 98), resolve the route's first hop (line 101, `?`),
set up flow control (line 102, `?`), create the access control (line 103),
fetch the purpose key for the identifier (lines 105-109, `?`), verify its
attestation (lines 111-114, `?`), create the Initiator-role handshake worker
with the route and the options' timeout (lines 116-130, `?`), and return the
handle built from the generated encryptor addresses and the flow-control id
(lines 132-136).  Each early return carries the context state reached so
far. -/
def SecureChannels.create_secure_channel (sc : SecureChannels)
    (ctx : Context) (identifier : Identifier) (route : Route)
    (options : SecureChannelOptions) :
    (SecureChannels × Context) × OckamResult SecureChannel :=
  let addresses := Addresses.generate Role.Initiator ctx.addr_counter
  let ctx := { ctx with addr_counter := ctx.addr_counter + 1 }
  let flow_control_id := options.flow_control_id
  match route.next with
  | .error e => ((sc, ctx), .error e)
  | .ok next =>
    match options.setup_flow_control ctx.flow_controls addresses next with
    | .error e => ((sc, ctx), .error e)
    | .ok fc =>
      let ctx := { ctx with flow_controls := fc }
      let access_control := options.create_access_control ctx.flow_controls
      match sc.purpose_keys.repository.get_purpose_key identifier Purpose.SecureChannel with
      | .error e => ((sc, ctx), .error e)
      | .ok purpose_key =>
        match sc.purpose_keys.verify_purpose_key_attestation purpose_key with
        | .error e => ((sc, ctx), .error e)
        | .ok purpose_key =>
          match HandshakeWorker.create ctx sc addresses identifier purpose_key
              options.trust_policy
              access_control.decryptor_outgoing_access_control
              options.credentials options.trust_context (some route)
              (some options.timeout) Role.Initiator with
          | ((sc, ctx), .error e) => ((sc, ctx), .error e)
          | ((sc, ctx), .ok _) =>
            ((sc, ctx),
             .ok (SecureChannel.new addresses.encryptor addresses.encryptor_api
                    flow_control_id))

/-- `SecureChannels::stop_secure_channel` (src/ lines 140-142): delegate to
`ctx.stop_worker` on the given address.  The facade itself does nothing
further; the registry mutation visible afterwards is the work of the runtime
workers' shutdown handlers (spec §4.4), which share the facade's
process-wide registry. -/
def SecureChannels.stop_secure_channel (sc : SecureChannels) (ctx : Context)
    (channel : Address) : (SecureChannels × Context) × OckamResult Unit :=
  let ((ctx, reg), res) := ctx.stop_worker sc.secure_channel_registry channel
  (({ sc with secure_channel_registry := reg }, ctx), res)

/-! ## Helper definitions and lemmas shared by the verification -/

/-- The purpose-key stage of channel creation as one pipeline: fetch the
attestation for the identifier, then verify it (src/ lines 105-114). -/
def purpose_key_pipeline (sc : SecureChannels) (identifier : Identifier) :
    OckamResult SecureChannelPurposeKey :=
  match sc.purpose_keys.repository.get_purpose_key identifier Purpose.SecureChannel with
  | .error e => .error e
  | .ok a => sc.purpose_keys.verify_purpose_key_attestation a

/-- A successfully fetched purpose-key attestation is for the requested
identifier and purpose. -/
theorem get_purpose_key_spec {repo : PurposeKeyRepository} {i : Identifier}
    {p : Purpose} {a : PurposeKeyAttestation}
    (h : repo.get_purpose_key i p = .ok a) : a.subject = i ∧ a.purpose = p := by
  unfold PurposeKeyRepository.get_purpose_key at h
  cases hfind : repo.keys.find? (fun x => x.subject = i ∧ x.purpose = p) with
  | none => rw [hfind] at h; exact absurd h (by simp)
  | some b =>
    rw [hfind] at h
    have hb : b = a := by injection h
    subst hb
    have := List.find?_some hfind
    exact of_decide_eq_true this

/-- Concrete world used by the witnesses: two identities with valid
secure-channel purpose keys. -/
def alice : Identifier := ⟨1⟩

/-- Second identity of the witness world. -/
def bob : Identifier := ⟨2⟩

/-- Valid purpose-key attestation for `alice`. -/
def aliceAttestation : PurposeKeyAttestation :=
  ⟨alice, .SecureChannel, 10, true, false⟩

/-- Valid purpose-key attestation for `bob`. -/
def bobAttestation : PurposeKeyAttestation :=
  ⟨bob, .SecureChannel, 20, true, false⟩

/-- Purpose-keys service of the witness world. -/
def pksWorld : PurposeKeys := ⟨⟨[aliceAttestation, bobAttestation]⟩⟩

/-- Facade service of the witness world, with an empty registry. -/
def scWorld : SecureChannels := SecureChannels.new ⟨⟨0⟩⟩ pksWorld []

/-- A listener for `bob` standing at address 7, trusting everyone. -/
def bobListener : ListenerEntry := ⟨7, bob, .trustEveryone, [], none, ⟨5⟩⟩

/-- Node context of the witness world: `bob`'s listener is bound at address 7
and its worker is running. -/
def ctxWorld : Context := ⟨[⟨7, none⟩], ⟨[]⟩, [bobListener], 100, 0, []⟩

/-- Channel-creation options used by the witnesses. -/
def optsWorld : SecureChannelOptions := ⟨⟨9⟩, .trustEveryone, [], none, 120⟩

/-! ## Claims -/

/-- C2 counterexample: the registry of this world is empty, so no secure
channel is registered at address 7; yet `stop_secure_channel` at 7 returns
`ok` (an unrelated worker runs there) instead of failing with
`ChannelNotFound`. -/
theorem claim_C2_counterexample :
    SecureChannelRegistry.lookup
      (SecureChannels.new ⟨⟨0⟩⟩ ⟨⟨[]⟩⟩ []).secure_channel_registry 7 = none ∧
    (SecureChannels.stop_secure_channel (SecureChannels.new ⟨⟨0⟩⟩ ⟨⟨[]⟩⟩ [])
      ⟨[⟨7, none⟩], ⟨[]⟩, [], 0, 0, []⟩ 7).2 = .ok () := by
  decide

/-- C2 (amended): `stop_secure_channel` delegates to the node's
`stop_worker`, whose failure mode is the presence of a worker, not of a
registry entry: at an address where no worker runs it fails with the
node-level `WorkerNotFound` error — never with `ChannelNotFound` —
regardless of the registry contents, and it succeeds whenever any worker
runs at the address even when no secure channel is registered there. -/
theorem claim_C2_stop_unregistered (sc : SecureChannels) (ctx : Context)
    (a : Address) (h : ctx.has_worker a = false) :
    (sc.stop_secure_channel ctx a).2 = .error .WorkerNotFound := by
  unfold SecureChannels.stop_secure_channel Context.stop_worker
  simp [h]

/-- Witness for C2: a concrete context with no worker at address 3. -/
theorem claim_C2_witness :
    Context.has_worker ⟨[], ⟨[]⟩, [], 0, 0, []⟩ 3 = false ∧
    (SecureChannels.stop_secure_channel (SecureChannels.new ⟨⟨0⟩⟩ ⟨⟨[]⟩⟩ [])
      ⟨[], ⟨[]⟩, [], 0, 0, []⟩ 3).2 = .error .WorkerNotFound :=
  ⟨by decide,
   claim_C2_stop_unregistered (SecureChannels.new ⟨⟨0⟩⟩ ⟨⟨[]⟩⟩ [])
     ⟨[], ⟨[]⟩, [], 0, 0, []⟩ 3 (by decide)⟩

/-- Registered-channel world for the C3 witness: the registry holds a
channel with encryptor address 7 and decryptor address 8, and both runtime
workers run. -/
def scStopWorld : SecureChannels :=
  SecureChannels.new ⟨⟨0⟩⟩ ⟨⟨[]⟩⟩ [⟨7, 8, alice, ⟨5⟩, .Initiator⟩]

/-- Context of the C3 witness world. -/
def ctxStopWorld : Context := ⟨[⟨7, none⟩, ⟨8, none⟩], ⟨[]⟩, [], 0, 0, []⟩

/-- C3: stopping a registered channel at its encryptor address returns `ok`
after the teardown cascade ran synchronously: the channel entry is gone from
the registry (a subsequent lookup at that address finds none) and both the
encryptor worker and the decryptor worker of the pair are no longer
running. -/
theorem claim_C3_stop_teardown (sc : SecureChannels) (ctx : Context)
    (a : Address) (entry : RegistryEntry)
    (hworker : ctx.has_worker a = true)
    (hfind : sc.secure_channel_registry.find? (fun e =>
        e.encryptor_address = a ∨ e.decryptor_address = a) = some entry)
    (ha : entry.encryptor_address = a) :
    (sc.stop_secure_channel ctx a).2 = .ok () ∧
    SecureChannelRegistry.lookup
      (sc.stop_secure_channel ctx a).1.1.secure_channel_registry a = none ∧
    Context.has_worker (sc.stop_secure_channel ctx a).1.2 entry.encryptor_address = false ∧
    Context.has_worker (sc.stop_secure_channel ctx a).1.2 entry.decryptor_address = false := by
  unfold SecureChannels.stop_secure_channel Context.stop_worker
  simp only [hworker, if_true, hfind]
  refine ⟨?_, ?_, ?_, ?_⟩
  · trivial
  · unfold SecureChannelRegistry.lookup
    rw [List.find?_eq_none]
    intro e he
    rw [List.mem_filter] at he
    have h2 := of_decide_eq_true he.2
    simp only [decide_eq_true_eq]
    rw [← ha]
    exact h2.1
  · unfold Context.has_worker
    rw [List.any_eq_false]
    intro w hw
    rw [List.mem_filter] at hw
    have h2 := of_decide_eq_true hw.2
    simp only [decide_eq_true_eq]
    exact h2.1
  · unfold Context.has_worker
    rw [List.any_eq_false]
    intro w hw
    rw [List.mem_filter] at hw
    have h2 := of_decide_eq_true hw.2
    simp only [decide_eq_true_eq]
    exact h2.2

/-- Witness for C3: stopping the registered channel of the witness world at
its encryptor address 7 removes the registry entry and stops both workers
(addresses 7 and 8). -/
theorem claim_C3_witness :
    (SecureChannels.stop_secure_channel scStopWorld ctxStopWorld 7).2 = .ok () ∧
    SecureChannelRegistry.lookup
      (SecureChannels.stop_secure_channel scStopWorld ctxStopWorld 7).1.1.secure_channel_registry
      7 = none ∧
    Context.has_worker
      (SecureChannels.stop_secure_channel scStopWorld ctxStopWorld 7).1.2 7 = false ∧
    Context.has_worker
      (SecureChannels.stop_secure_channel scStopWorld ctxStopWorld 7).1.2 8 = false :=
  claim_C3_stop_teardown scStopWorld ctxStopWorld 7 ⟨7, 8, alice, ⟨5⟩, .Initiator⟩
    (by decide) (by decide) (by decide)

/-- C4: a call to `create_secure_channel` with an empty route fails with the
route-resolution error, performs no flow-control setup, and spawns no
handshake worker (the handshake log is unchanged). -/
theorem claim_C4_empty_route (sc : SecureChannels) (ctx : Context)
    (identifier : Identifier) (route : Route)
    (options : SecureChannelOptions) (h : route.hops = []) :
    (sc.create_secure_channel ctx identifier route options).2
      = .error .RouteResolutionFailed ∧
    (sc.create_secure_channel ctx identifier route options).1.2.handshake_log
      = ctx.handshake_log ∧
    (sc.create_secure_channel ctx identifier route options).1.2.flow_controls
      = ctx.flow_controls := by
  obtain ⟨hops⟩ := route
  simp only at h
  subst h
  unfold SecureChannels.create_secure_channel Route.next
  simp

/-- Witness for C4: the empty route in the witness world. -/
theorem claim_C4_witness :
    (Route.mk []).hops = [] ∧
    (SecureChannels.create_secure_channel scWorld ctxWorld alice ⟨[]⟩
      optsWorld).2 = .error .RouteResolutionFailed :=
  ⟨rfl,
   (claim_C4_empty_route scWorld ctxWorld alice ⟨[]⟩ optsWorld rfl).1⟩

/-- Flow-control setup always succeeds and prepends the reservation for the
resolved next hop under the options' flow-control id. -/
theorem setup_flow_control_eq (o : SecureChannelOptions) (fc : FlowControls)
    (a : Addresses) (n : Address) :
    o.setup_flow_control fc a n = .ok ⟨(n, o.flow_control_id) :: fc.reservations⟩ := rfl

/-- C5: every successful `create_secure_channel` call returns a handle
carrying the encryptor (and encryptor-api) address of the `Addresses` tuple
freshly generated from the context's allocator counter, and the flow-control
id taken from the options. -/
theorem claim_C5_handle_fields (sc : SecureChannels) (ctx : Context)
    (identifier : Identifier) (route : Route)
    (options : SecureChannelOptions) (ch : SecureChannel)
    (h : (sc.create_secure_channel ctx identifier route options).2 = .ok ch) :
    ch.encryptor_address = (Addresses.generate Role.Initiator ctx.addr_counter).encryptor ∧
    ch.encryptor_api_address = (Addresses.generate Role.Initiator ctx.addr_counter).encryptor_api ∧
    ch.flow_control_id = options.flow_control_id := by
  unfold SecureChannels.create_secure_channel at h
  simp only [setup_flow_control_eq] at h
  repeat' split at h
  any_goals exact Except.noConfusion h
  injection h with h
  subst h
  exact ⟨rfl, rfl, rfl⟩

/-- Witness for C5: the successful creation in the witness world returns the
handle with encryptor address 400 (counter 100, Initiator tuple), encryptor
api address 401 and flow-control id 9. -/
theorem claim_C5_witness :
    (SecureChannels.create_secure_channel scWorld ctxWorld alice ⟨[7]⟩ optsWorld).2
      = .ok ⟨400, 401, ⟨9⟩⟩ ∧
    (SecureChannel.mk 400 401 ⟨9⟩).encryptor_address
      = (Addresses.generate Role.Initiator ctxWorld.addr_counter).encryptor ∧
    (SecureChannel.mk 400 401 ⟨9⟩).encryptor_api_address
      = (Addresses.generate Role.Initiator ctxWorld.addr_counter).encryptor_api ∧
    (SecureChannel.mk 400 401 ⟨9⟩).flow_control_id = optsWorld.flow_control_id :=
  ⟨by decide,
   claim_C5_handle_fields scWorld ctxWorld alice ⟨[7]⟩ optsWorld ⟨400, 401, ⟨9⟩⟩
     (by decide)⟩

/-- `create_secure_channel` restated in staged form: resolve the first hop,
run the purpose-key pipeline, then hand the staged context (allocator bumped,
flow-control reservation added) to the Initiator-role handshake worker.
Proved equal to the definition by case analysis on each step. -/
theorem create_secure_channel_staged (sc : SecureChannels) (ctx : Context)
    (identifier : Identifier) (route : Route) (options : SecureChannelOptions) :
    sc.create_secure_channel ctx identifier route options =
      match route.next with
      | .error e => ((sc, { ctx with addr_counter := ctx.addr_counter + 1 }), .error e)
      | .ok next =>
        match purpose_key_pipeline sc identifier with
        | .error e =>
          ((sc, { ctx with
                  addr_counter := ctx.addr_counter + 1
                  flow_controls :=
                    ⟨(next, options.flow_control_id) :: ctx.flow_controls.reservations⟩ }),
           .error e)
        | .ok k =>
          match HandshakeWorker.create
              { ctx with
                addr_counter := ctx.addr_counter + 1
                flow_controls :=
                  ⟨(next, options.flow_control_id) :: ctx.flow_controls.reservations⟩ }
              sc (Addresses.generate Role.Initiator ctx.addr_counter) identifier k
              options.trust_policy ⟨options.flow_control_id⟩ options.credentials
              options.trust_context (some route) (some options.timeout)
              Role.Initiator with
          | ((sc', ctx'), .error e) => ((sc', ctx'), .error e)
          | ((sc', ctx'), .ok _) =>
            ((sc', ctx'),
             .ok (SecureChannel.new
                    (Addresses.generate Role.Initiator ctx.addr_counter).encryptor
                    (Addresses.generate Role.Initiator ctx.addr_counter).encryptor_api
                    options.flow_control_id)) := by
  cases hnext : route.next with
  | error e => unfold SecureChannels.create_secure_channel; rw [hnext]
  | ok next =>
    unfold SecureChannels.create_secure_channel purpose_key_pipeline
    rw [hnext]
    cases hget : sc.purpose_keys.repository.get_purpose_key identifier Purpose.SecureChannel with
    | error e => rfl
    | ok a =>
      cases hver : sc.purpose_keys.verify_purpose_key_attestation a with
      | error e => rfl
      | ok k => rfl

/-- Every invocation of the handshake worker records its request — addresses,
identifier, purpose key, route, timeout and role — at the head of the
context's handshake log, whatever the outcome. -/
theorem handshake_worker_log (ctx : Context) (sc : SecureChannels)
    (addresses : Addresses) (identifier : Identifier)
    (k : SecureChannelPurposeKey) (tp : TrustPolicy)
    (ac : DecryptorOutgoingAccessControl) (creds : List Credential)
    (tc : Option TrustContext) (route : Option Route) (timeout : Option Nat)
    (role : Role) :
    (HandshakeWorker.create ctx sc addresses identifier k tp ac creds tc route
        timeout role).1.2.handshake_log
      = ⟨addresses, identifier, k, route, timeout, role⟩ :: ctx.handshake_log := by
  unfold HandshakeWorker.create
  dsimp only
  repeat' split
  all_goals rfl

/-- C6: when the route's first hop resolves but the purpose-key stage —
fetching the attestation for the identifier or verifying it — fails, the
call returns exactly that error and the handshake log is unchanged: no
handshake worker was created (the purpose-key stage sits at src/ lines
105-114, before `HandshakeWorker::create` at lines 116-130). -/
theorem claim_C6_purpose_key_before_worker (sc : SecureChannels)
    (ctx : Context) (identifier : Identifier) (route : Route)
    (options : SecureChannelOptions) (next : Address) (e : OckamError)
    (hnext : route.next = .ok next)
    (hpipe : purpose_key_pipeline sc identifier = .error e) :
    (sc.create_secure_channel ctx identifier route options).2 = .error e ∧
    (sc.create_secure_channel ctx identifier route options).1.2.handshake_log
      = ctx.handshake_log := by
  simp [create_secure_channel_staged, hnext, hpipe]

/-- Identity with no purpose key in the witness world's repository. -/
def carol : Identifier := ⟨3⟩

/-- Witness for C6: creating a channel for `carol`, who has no purpose key
on record, fails with `PurposeKeyNotFound` and leaves the handshake log
empty. -/
theorem claim_C6_witness :
    (Route.mk [7]).next = .ok 7 ∧
    purpose_key_pipeline scWorld carol = .error .PurposeKeyNotFound ∧
    (SecureChannels.create_secure_channel scWorld ctxWorld carol ⟨[7]⟩
      optsWorld).2 = .error .PurposeKeyNotFound ∧
    (SecureChannels.create_secure_channel scWorld ctxWorld carol ⟨[7]⟩
      optsWorld).1.2.handshake_log = ctxWorld.handshake_log :=
  ⟨by decide, by decide,
   (claim_C6_purpose_key_before_worker scWorld ctxWorld carol ⟨[7]⟩ optsWorld
      7 .PurposeKeyNotFound (by decide) (by decide)).1,
   (claim_C6_purpose_key_before_worker scWorld ctxWorld carol ⟨[7]⟩ optsWorld
      7 .PurposeKeyNotFound (by decide) (by decide)).2⟩

/-- C7: whenever the route resolves and the purpose-key stage succeeds, the
handshake worker is created — the request logged at the head of the
handshake log carries the `Addresses` tuple generated for `Role::Initiator`
from the allocator counter, the caller's identifier, the verified purpose
key, the resolved route, the timeout configured in the options (always
`some`), and `Role::Initiator` (src/ lines 96 and 116-130). -/
theorem claim_C7_initiator_role_route_timeout (sc : SecureChannels)
    (ctx : Context) (identifier : Identifier) (route : Route)
    (options : SecureChannelOptions) (next : Address)
    (k : SecureChannelPurposeKey)
    (hnext : route.next = .ok next)
    (hpipe : purpose_key_pipeline sc identifier = .ok k) :
    (sc.create_secure_channel ctx identifier route options).1.2.handshake_log
      = ⟨Addresses.generate Role.Initiator ctx.addr_counter, identifier, k,
          some route, some options.timeout, Role.Initiator⟩ :: ctx.handshake_log := by
  simp only [create_secure_channel_staged, hnext, hpipe]
  split
  all_goals rename_i sc2 ctx2 r heq
  all_goals (
    have hl := handshake_worker_log
      { ctx with
        addr_counter := ctx.addr_counter + 1
        flow_controls :=
          ⟨(next, options.flow_control_id) :: ctx.flow_controls.reservations⟩ }
      sc (Addresses.generate Role.Initiator ctx.addr_counter) identifier k
      options.trust_policy ⟨options.flow_control_id⟩ options.credentials
      options.trust_context (some route) (some options.timeout) Role.Initiator;
    rw [heq] at hl;
    exact hl)

/-- Witness for C7: the successful creation in the witness world logs an
Initiator-role request with the generated addresses, `alice`'s verified
purpose key, the route and the 120 timeout. -/
theorem claim_C7_witness :
    (Route.mk [7]).next = .ok 7 ∧
    purpose_key_pipeline scWorld alice = .ok ⟨aliceAttestation⟩ ∧
    (SecureChannels.create_secure_channel scWorld ctxWorld alice ⟨[7]⟩
      optsWorld).1.2.handshake_log
      = ⟨Addresses.generate Role.Initiator ctxWorld.addr_counter, alice,
          ⟨aliceAttestation⟩, some ⟨[7]⟩, some optsWorld.timeout,
          Role.Initiator⟩ :: ctxWorld.handshake_log :=
  ⟨by decide, by decide,
   claim_C7_initiator_role_route_timeout scWorld ctxWorld alice ⟨[7]⟩ optsWorld
     7 ⟨aliceAttestation⟩ (by decide) (by decide)⟩

/-- C10: when the route resolves and flow control is set up but the
purpose-key fetch or verification then fails, the call returns that error
while the flow-control reservation made for the first hop is still in place
— the early return does not undo the flow-control setup (src/ lines 102 and
105-114). -/
theorem claim_C10_flow_control_not_undone (sc : SecureChannels)
    (ctx : Context) (identifier : Identifier) (route : Route)
    (options : SecureChannelOptions) (next : Address) (e : OckamError)
    (hnext : route.next = .ok next)
    (hpipe : purpose_key_pipeline sc identifier = .error e) :
    (sc.create_secure_channel ctx identifier route options).2 = .error e ∧
    (sc.create_secure_channel ctx identifier route options).1.2.flow_controls.reservations
      = (next, options.flow_control_id) :: ctx.flow_controls.reservations := by
  simp [create_secure_channel_staged, hnext, hpipe]

/-- Witness for C10: the failed creation for `carol` leaves the reservation
for hop 7 under flow-control id 9 in place. -/
theorem claim_C10_witness :
    (Route.mk [7]).next = .ok 7 ∧
    purpose_key_pipeline scWorld carol = .error .PurposeKeyNotFound ∧
    (SecureChannels.create_secure_channel scWorld ctxWorld carol ⟨[7]⟩
      optsWorld).2 = .error .PurposeKeyNotFound ∧
    (SecureChannels.create_secure_channel scWorld ctxWorld carol ⟨[7]⟩
      optsWorld).1.2.flow_controls.reservations
      = (7, optsWorld.flow_control_id) :: ctxWorld.flow_controls.reservations :=
  ⟨by decide, by decide,
   (claim_C10_flow_control_not_undone scWorld ctxWorld carol ⟨[7]⟩ optsWorld
      7 .PurposeKeyNotFound (by decide) (by decide)).1,
   (claim_C10_flow_control_not_undone scWorld ctxWorld carol ⟨[7]⟩ optsWorld
      7 .PurposeKeyNotFound (by decide) (by decide)).2⟩

/-- C9: the call returns a channel handle exactly when every step succeeds —
the first hop resolves, the (infallible in this model) flow-control setup
runs, the purpose-key fetch-and-verify pipeline succeeds, and the handshake
worker invoked with the staged context succeeds; and any error the call
surfaces is precisely the error of one of its steps, so no partial channel
handle is ever returned alongside a failure. -/
theorem claim_C9_handle_iff_all_steps (sc : SecureChannels) (ctx : Context)
    (identifier : Identifier) (route : Route) (options : SecureChannelOptions) :
    ((∃ ch, (sc.create_secure_channel ctx identifier route options).2 = .ok ch) ↔
      ∃ next, route.next = .ok next ∧
      ∃ k, purpose_key_pipeline sc identifier = .ok k ∧
        (HandshakeWorker.create
            { ctx with
              addr_counter := ctx.addr_counter + 1
              flow_controls :=
                ⟨(next, options.flow_control_id) :: ctx.flow_controls.reservations⟩ }
            sc (Addresses.generate Role.Initiator ctx.addr_counter) identifier k
            options.trust_policy ⟨options.flow_control_id⟩ options.credentials
            options.trust_context (some route) (some options.timeout)
            Role.Initiator).2 = .ok ()) ∧
    (∀ e, (sc.create_secure_channel ctx identifier route options).2 = .error e →
      route.next = .error e ∨ purpose_key_pipeline sc identifier = .error e ∨
      (∃ next, route.next = .ok next ∧
       ∃ k, purpose_key_pipeline sc identifier = .ok k ∧
        (HandshakeWorker.create
            { ctx with
              addr_counter := ctx.addr_counter + 1
              flow_controls :=
                ⟨(next, options.flow_control_id) :: ctx.flow_controls.reservations⟩ }
            sc (Addresses.generate Role.Initiator ctx.addr_counter) identifier k
            options.trust_policy ⟨options.flow_control_id⟩ options.credentials
            options.trust_context (some route) (some options.timeout)
            Role.Initiator).2 = .error e)) := by
  cases hnext : route.next with
  | error e0 =>
    constructor
    · constructor
      · rintro ⟨ch, h⟩
        simp [create_secure_channel_staged, hnext] at h
      · rintro ⟨next, hn, _⟩
        exact Except.noConfusion hn
    · intro e h
      simp [create_secure_channel_staged, hnext] at h
      subst h
      exact Or.inl rfl
  | ok next =>
    cases hpipe : purpose_key_pipeline sc identifier with
    | error e0 =>
      constructor
      · constructor
        · rintro ⟨ch, h⟩
          simp [create_secure_channel_staged, hnext, hpipe] at h
        · rintro ⟨next2, hn, k, hk, _⟩
          exact Except.noConfusion hk
      · intro e h
        simp [create_secure_channel_staged, hnext, hpipe] at h
        subst h
        exact Or.inr (Or.inl rfl)
    | ok k =>
      rcases hw : HandshakeWorker.create
          { ctx with
            addr_counter := ctx.addr_counter + 1
            flow_controls :=
              ⟨(next, options.flow_control_id) :: ctx.flow_controls.reservations⟩ }
          sc (Addresses.generate Role.Initiator ctx.addr_counter) identifier k
          options.trust_policy ⟨options.flow_control_id⟩ options.credentials
          options.trust_context (some route) (some options.timeout)
          Role.Initiator with ⟨⟨sc2, ctx2⟩, wres⟩
      cases wres with
      | error e0 =>
        constructor
        · constructor
          · rintro ⟨ch, h⟩
            simp [create_secure_channel_staged, hnext, hpipe, hw] at h
          · rintro ⟨next2, hn, k2, hk, hwok⟩
            injection hn with hn
            subst hn
            injection hk with hk
            subst hk
            rw [hw] at hwok
            exact Except.noConfusion hwok
        · intro e h
          simp [create_secure_channel_staged, hnext, hpipe, hw] at h
          subst h
          exact Or.inr (Or.inr ⟨next, rfl, k, rfl, by rw [hw]⟩)
      | ok u =>
        constructor
        · constructor
          · intro _
            exact ⟨next, rfl, k, rfl, by rw [hw]⟩
          · intro _
            exact ⟨SecureChannel.new
                (Addresses.generate Role.Initiator ctx.addr_counter).encryptor
                (Addresses.generate Role.Initiator ctx.addr_counter).encryptor_api
                options.flow_control_id,
              by simp [create_secure_channel_staged, hnext, hpipe, hw]⟩
        · intro e h
          simp [create_secure_channel_staged, hnext, hpipe, hw] at h

/-- Witness for C9: from the successful creation in the witness world, the
forward direction of the equivalence recovers the success of every step. -/
theorem claim_C9_witness :
    ∃ next, (Route.mk [7]).next = .ok next ∧
    ∃ k, purpose_key_pipeline scWorld alice = .ok k ∧
      (HandshakeWorker.create
          { ctxWorld with
            addr_counter := ctxWorld.addr_counter + 1
            flow_controls :=
              ⟨(next, optsWorld.flow_control_id) :: ctxWorld.flow_controls.reservations⟩ }
          scWorld (Addresses.generate Role.Initiator ctxWorld.addr_counter) alice k
          optsWorld.trust_policy ⟨optsWorld.flow_control_id⟩ optsWorld.credentials
          optsWorld.trust_context (some ⟨[7]⟩) (some optsWorld.timeout)
          Role.Initiator).2 = .ok () :=
  (claim_C9_handle_iff_all_steps scWorld ctxWorld alice ⟨[7]⟩ optsWorld).1.mp
    ⟨⟨400, 401, ⟨9⟩⟩, by decide⟩

/-- Listener options used by the witnesses. -/
def listenerOptsWorld : SecureChannelListenerOptions :=
  ⟨⟨5⟩, .trustEveryone, [], none⟩

/-- An empty node context for listener creation. -/
def ctxEmpty : Context := ⟨[], ⟨[]⟩, [], 0, 0, []⟩

/-- C8: a successful `create_secure_channel_listener` call returns the handle
built from exactly the bound address and the options' flow-control id, with a
listener for the given identifier registered at that address; a failure of
the underlying listener creation is returned as the call's error and no
handle is produced (src/ lines 65-86). -/
theorem claim_C8_listener_handle (sc : SecureChannels) (ctx : Context)
    (identifier : Identifier) (address : Address)
    (options : SecureChannelListenerOptions) :
    (∀ ln, (sc.create_secure_channel_listener ctx identifier address options).2 = .ok ln →
      ln = SecureChannelListener.new address options.flow_control_id ∧
      ((sc.create_secure_channel_listener ctx identifier address options).1.2.listeners.find?
          (fun l => l.address = address)
        = some ⟨address, identifier, options.trust_policy, options.credentials,
                 options.trust_context, options.flow_control_id⟩)) ∧
    (∀ e, (IdentityChannelListener.create ctx sc identifier address options).2 = .error e →
      (sc.create_secure_channel_listener ctx identifier address options).2 = .error e) := by
  unfold SecureChannels.create_secure_channel_listener IdentityChannelListener.create
  by_cases hcond : (ctx.has_worker address = true ∨
      ctx.listeners.any (fun l => l.address = address) = true)
  · simp only [if_pos hcond]
    constructor
    · intro ln h
      exact Except.noConfusion h
    · intro e h
      injection h with h
      rw [h]
  · simp only [if_neg hcond]
    constructor
    · intro ln h
      injection h with h
      subst h
      constructor
      · rfl
      · simp [List.find?]
    · intro e h
      exact Except.noConfusion h

/-- Witness for C8: creating `bob`'s listener at address 7 in an empty
context yields the handle with address 7 and flow-control id 5, and the
listener entry is found at that address. -/
theorem claim_C8_witness :
    (SecureChannels.create_secure_channel_listener scWorld ctxEmpty bob 7
        listenerOptsWorld).2 = .ok (SecureChannelListener.new 7 ⟨5⟩) ∧
    (SecureChannelListener.new 7 ⟨5⟩
        = SecureChannelListener.new 7 listenerOptsWorld.flow_control_id ∧
      ((SecureChannels.create_secure_channel_listener scWorld ctxEmpty bob 7
          listenerOptsWorld).1.2.listeners.find? (fun l => l.address = 7)
        = some ⟨7, bob, listenerOptsWorld.trust_policy,
                 listenerOptsWorld.credentials, listenerOptsWorld.trust_context,
                 listenerOptsWorld.flow_control_id⟩)) :=
  ⟨by decide,
   (claim_C8_listener_handle scWorld ctxEmpty bob 7 listenerOptsWorld).1
     (SecureChannelListener.new 7 ⟨5⟩) (by decide)⟩

/-- Commutativity of the DH combination: both sides compute the same shared
element from the two ephemeral scalars. -/
theorem dhShared_pub_comm (x y : Nat) : dhShared x (dhPub y) = dhShared y (dhPub x) :=
  pow_right_comm dhGen y x

/-- For configurations whose attestations verify and whose trust policies
accept each other (credentials all valid), the three-message handshake
completes and both sides independently derive the same session secret and
the correct peer identity. -/
theorem run_handshake_completes (pks : PurposeKeys) (ini resp : HandshakeConfig)
    (a_i a_r : PurposeKeyAttestation)
    (hik : ini.purpose_key = some ⟨a_i⟩)
    (hisig : a_i.valid_signature = true) (hiexp : a_i.expired = false)
    (hget : pks.repository.get_purpose_key resp.identifier Purpose.SecureChannel = .ok a_r)
    (hrsig : a_r.valid_signature = true) (hrexp : a_r.expired = false)
    (htrust_i : ini.trust_policy.check a_r.subject = true)
    (htrust_r : resp.trust_policy.check a_i.subject = true)
    (hcred_i : ini.credentials.all (fun c => c.valid) = true)
    (hcred_r : resp.credentials.all (fun c => c.valid) = true) :
    ∃ o, run_handshake pks ini resp = .ok o ∧
      o.initiator_secret = o.responder_secret ∧
      o.initiator_peer = a_r.subject ∧ o.responder_peer = a_i.subject := by
  unfold run_handshake initiator_start responder_process_message1
    initiator_process_message2 initiator_finalize responder_process_message3
    PurposeKeys.verify_purpose_key_attestation
  rw [hget]
  simp [hisig, hiexp, hrsig, hrexp, hik, hsVerify, hsSign,
    evaluate_trust_policy, verify_credentials, htrust_i, htrust_r, hcred_i,
    hcred_r]
  rw [dhShared_pub_comm]

/-- Ciphertext produced at a sequence counter not yet consumed by the
decryptor decrypts back to the original payload when both workers hold the
same session secret. -/
theorem decrypt_encrypt_roundtrip (s : SessionSecret) (seq : Nat)
    (consumed : List Nat) (payload : Nat) (h : seq ∉ consumed) :
    (decrypt ⟨s, consumed⟩ (encrypt ⟨s, seq⟩ payload).2).2 = .ok payload := by
  unfold encrypt decrypt
  simp [h]

/-- C1: for every initiator/responder pair whose trust policies accept each
other (both attestations on record, valid and unexpired, credentials all
valid, a listener standing at the route's destination), the handshake
started by `create_secure_channel` completes: the call returns a handle, the
initiator's encryptor worker and the responder's decryptor worker (named by
the Responder registry entry) are seeded with identical session secrets, and
a payload encrypted by the initiator's encryptor decrypts correctly on the
responder's decryptor. -/
theorem claim_C1_handshake_agreement (sc : SecureChannels) (ctx : Context)
    (identifier : Identifier) (route : Route) (options : SecureChannelOptions)
    (L : ListenerEntry) (a_i a_r : PurposeKeyAttestation)
    (next dest : Address)
    (hnext : route.next = .ok next)
    (hdest : route.destination = .ok dest)
    (hfind : ctx.listeners.find? (fun l => l.address = dest) = some L)
    (hgi : sc.purpose_keys.repository.get_purpose_key identifier Purpose.SecureChannel = .ok a_i)
    (hisig : a_i.valid_signature = true) (hiexp : a_i.expired = false)
    (hgr : sc.purpose_keys.repository.get_purpose_key L.identifier Purpose.SecureChannel = .ok a_r)
    (hrsig : a_r.valid_signature = true) (hrexp : a_r.expired = false)
    (htrust_i : options.trust_policy.check a_r.subject = true)
    (htrust_r : L.trust_policy.check a_i.subject = true)
    (hcred_i : options.credentials.all (fun c => c.valid) = true)
    (hcred_r : L.credentials.all (fun c => c.valid) = true) :
    ∃ ch s_i s_r e_r,
      (sc.create_secure_channel ctx identifier route options).2 = .ok ch ∧
      Worker.mk ch.encryptor_address (some s_i)
        ∈ (sc.create_secure_channel ctx identifier route options).1.2.workers ∧
      e_r ∈ (sc.create_secure_channel ctx identifier route options).1.1.secure_channel_registry ∧
      e_r.role = Role.Responder ∧
      Worker.mk e_r.decryptor_address (some s_r)
        ∈ (sc.create_secure_channel ctx identifier route options).1.2.workers ∧
      s_i = s_r ∧
      (∀ payload, (decrypt ⟨s_r, []⟩ (encrypt ⟨s_i, 0⟩ payload).2).2 = .ok payload) := by
  have hpipe : purpose_key_pipeline sc identifier = .ok ⟨a_i⟩ := by
    unfold purpose_key_pipeline PurposeKeys.verify_purpose_key_attestation
    rw [hgi]
    simp [hisig, hiexp]
  obtain ⟨o, ho, hsec, hpi, hpr⟩ := run_handshake_completes sc.purpose_keys
    ⟨identifier, some ⟨a_i⟩, options.trust_policy, options.credentials,
      options.trust_context, ctx.rng⟩
    ⟨L.identifier, none, L.trust_policy, L.credentials, L.trust_context,
      ctx.rng + 1⟩
    a_i a_r rfl hisig hiexp hgr hrsig hrexp htrust_i htrust_r hcred_i hcred_r
  simp only [create_secure_channel_staged, hnext, hpipe]
  unfold HandshakeWorker.create
  simp only [hdest, hfind, ho]
  refine ⟨_, o.initiator_secret, o.responder_secret,
    ⟨(Addresses.generate Role.Responder (ctx.addr_counter + 1)).encryptor,
     (Addresses.generate Role.Responder (ctx.addr_counter + 1)).decryptor,
     o.responder_peer, L.flow_control_id, Role.Responder⟩,
    rfl, ?_, ?_, rfl, ?_, hsec, ?_⟩
  · exact List.mem_cons_self _ _
  · exact List.mem_cons_of_mem _ (List.mem_cons_self _ _)
  · exact List.mem_cons_of_mem _ (List.mem_cons_of_mem _
      (List.mem_cons_of_mem _ (List.mem_cons_self _ _)))
  · intro payload
    rw [hsec]
    exact decrypt_encrypt_roundtrip o.responder_secret 0 [] payload (by simp)

/-- Witness for C1: in the witness world (mutually trusting `alice` and
`bob`, both with valid purpose keys, `bob`'s listener at address 7) the
creation succeeds, both runtime workers hold equal secrets and the ping
roundtrip works. -/
theorem claim_C1_witness :
    ∃ ch s_i s_r e_r,
      (SecureChannels.create_secure_channel scWorld ctxWorld alice ⟨[7]⟩ optsWorld).2 = .ok ch ∧
      Worker.mk ch.encryptor_address (some s_i)
        ∈ (SecureChannels.create_secure_channel scWorld ctxWorld alice ⟨[7]⟩ optsWorld).1.2.workers ∧
      e_r ∈ (SecureChannels.create_secure_channel scWorld ctxWorld alice ⟨[7]⟩
              optsWorld).1.1.secure_channel_registry ∧
      e_r.role = Role.Responder ∧
      Worker.mk e_r.decryptor_address (some s_r)
        ∈ (SecureChannels.create_secure_channel scWorld ctxWorld alice ⟨[7]⟩ optsWorld).1.2.workers ∧
      s_i = s_r ∧
      (∀ payload, (decrypt ⟨s_r, []⟩ (encrypt ⟨s_i, 0⟩ payload).2).2 = .ok payload) :=
  claim_C1_handshake_agreement scWorld ctxWorld alice ⟨[7]⟩ optsWorld
    bobListener aliceAttestation bobAttestation 7 7
    (by decide) (by decide) (by decide) (by decide) (by decide) (by decide)
    (by decide) (by decide) (by decide) (by decide) (by decide) (by decide)
    (by decide)
